import Mathlib

/-!
Shallow embedding of the user-account service in src/app_secure.py:
input validation (validate_input, validate_username, validate_password),
password hashing/verification (hash_password, verify_password over a model
of the external bcrypt library), and the three endpoints create_user
(POST /users), login (POST /login) and get_users (GET /users) over a
model of the sqlite users table.
-/

/-- JSON values, as far as the request payloads and responses need them. -/
inductive JVal where
  | str : String → JVal
  | num : Nat → JVal
  | arr : List JVal → JVal
  | obj : List (String × JVal) → JVal

/-- An HTTP response: status code plus JSON object body (jsonify of a dict). -/
structure Resp where
  status : Nat
  body : List (String × JVal)

/-- Keys of a JSON object given as a key-value list. -/
def keysOf (l : List (String × JVal)) : List String := l.map Prod.fst

/-- Keys of a JVal that is an object; empty for other shapes. -/
def keysOfObj : JVal → List String
  | .obj l => keysOf l
  | _ => []

/-- Python truthiness of a JSON value, used by the check
if field not in data or not data[field] in validate_input. -/
def JVal.isTruthy : JVal → Bool
  | .str s => !(s == "")
  | .num n => !(n == 0)
  | .arr l => !l.isEmpty
  | .obj l => !l.isEmpty

/-- Drop leading whitespace characters from a character list. -/
def stripLead : List Char → List Char
  | [] => []
  | c :: cs => if c.isWhitespace then stripLead cs else c :: cs

/-- Python str.strip(): remove leading and trailing whitespace. -/
def pyStrip (s : String) : String :=
  ⟨(stripLead (stripLead s.data).reverse).reverse⟩

/-- Dict lookup data[field] on the payload. -/
def lookupField (d : List (String × JVal)) (k : String) : Option JVal :=
  (d.find? (fun kv => kv.1 == k)).map Prod.snd

/-- Loop body of validate_input (src/app_secure.py lines 97-112): for each
required field, reject it when missing or falsy, non-string, empty after
strip, or longer than 255; on success return the stripped values. -/
def validateFields (d : List (String × JVal)) : List String → Except String (List (String × String))
  | [] => .ok []
  | f :: fs =>
    match lookupField d f with
    | none => .error ("Missing required field: " ++ f)
    | some v =>
      if v.isTruthy = false then .error ("Missing required field: " ++ f)
      else
        match v with
        | .str s =>
          if (pyStrip s).length == 0 then .error ("Empty value for " ++ f)
          else if s.length > 255 then .error ("Value too long for " ++ f)
          else
            match validateFields d fs with
            | .error m => .error m
            | .ok rest => .ok ((f, pyStrip s) :: rest)
        | _ => .error ("Invalid data type for " ++ f)

/-- validate_input (src/app_secure.py lines 92-112): generic field validation.
A missing body and an empty JSON object are both falsy in Python, so both
raise BadRequest with No data provided. -/
def validate_input (data : Option (List (String × JVal))) (required_fields : List String) :
    Except String (List (String × String)) :=
  match data with
  | none => .error "No data provided"
  | some d =>
    if d.isEmpty then .error "No data provided"
    else validateFields d required_fields

/-- Lookup in the validated, stripped field map returned by validate_input. -/
def getv (vals : List (String × String)) (k : String) : String :=
  ((vals.find? (fun kv => kv.1 == k)).map Prod.snd).getD ""

/-- The allowed_chars literal of validate_username
(src/app_secure.py lines 124-126). -/
def allowed_chars : List Char :=
  "abcdefghijklmnopqrstuvwxyzABCDEFGHIJKLMNOPQRSTUVWXYZ0123456789_-.".data

/-- validate_username (src/app_secure.py lines 115-130). The Python
set(username).issubset(allowed_chars) is modelled as deduplicating the
characters and testing each against the allowed list. -/
def validate_username (username : String) : Bool × String :=
  if username.length < 3 then
    (false, "Username must be at least 3 characters long")
  else if username.length > 50 then
    (false, "Username must be less than 50 characters")
  else if (username.data.dedup).all (fun c => allowed_chars.contains c) then
    (true, "Valid username")
  else
    (false, "Username contains invalid characters")

/-- validate_password (src/app_secure.py lines 133-152). The Python
character classifiers isupper, islower, isdigit are modelled on their
ASCII behaviour. -/
def validate_password (password : String) : Bool × String :=
  if password.length < 8 then
    (false, "Password must be at least 8 characters long")
  else if password.length > 128 then
    (false, "Password too long")
  else
    let has_upper := password.data.any Char.isUpper
    let has_lower := password.data.any Char.isLower
    let has_digit := password.data.any Char.isDigit
    if !(has_upper && has_lower && has_digit) then
      (false, "Password must contain uppercase, lowercase, and numeric characters")
    else
      (true, "Valid password")

/-- Bytes of password.encode of utf-8, modelled as the code points. -/
def strBytes (s : String) : List Nat := s.data.map Char.toNat

/-- A parsed bcrypt hash: the embedded salt and the check value derived
from salt and password. Models the structure of the external bcrypt
library output, whose detailed digest function is abstracted. -/
structure BcryptHash where
  salt : Nat
  check : List Nat
deriving DecidableEq, Repr

/-- The salt-dependent digest of the password bytes (abstract model of the
bcrypt key-derivation: injective in both salt and password bytes). -/
def bcryptDigest (pwBytes : List Nat) (salt : Nat) : List Nat :=
  salt :: pwBytes

/-- Serialization of a bcrypt hash to bytes; byte 36 is the leading
dollar sign of the modular-crypt format. -/
def bcryptSerialize (h : BcryptHash) : List Nat :=
  36 :: h.salt :: h.check

/-- Parsing hash bytes back; malformed byte sequences parse to none, on
which the real bcrypt.checkpw raises ValueError Invalid salt. -/
def bcryptParse : List Nat → Option BcryptHash
  | 36 :: salt :: check => some ⟨salt, check⟩
  | _ => none

/-- bcrypt.hashpw: combine password bytes with the salt. -/
def bcrypt_hashpw (pwBytes : List Nat) (salt : Nat) : List Nat :=
  bcryptSerialize ⟨salt, bcryptDigest pwBytes salt⟩

/-- bcrypt.checkpw: recompute the digest with the salt embedded in the
stored hash and compare; raises (Except.error) on a malformed hash, as the
bcrypt library documents for invalid salt input. -/
def bcrypt_checkpw (pwBytes : List Nat) (hashBytes : List Nat) : Except String Bool :=
  match bcryptParse hashBytes with
  | none => .error "Invalid salt"
  | some h => .ok (bcryptDigest pwBytes h.salt == h.check)

/-- hash_password (src/app_secure.py lines 155-160). The fresh random salt
bcrypt.gensalt produces per call is made explicit as a salt argument. -/
def hash_password (password : String) (salt : Nat) : List Nat :=
  bcrypt_hashpw (strBytes password) salt

/-- verify_password (src/app_secure.py lines 163-165): a direct call to
bcrypt.checkpw with no exception handling, so an error on malformed hash
input propagates to the caller. -/
def verify_password (password : String) (password_hash : List Nat) : Except String Bool :=
  bcrypt_checkpw (strBytes password) password_hash

/-- A row of the users table (id INTEGER PRIMARY KEY AUTOINCREMENT,
username TEXT UNIQUE, password_hash BLOB, created_at TEXT). The created_at
ISO timestamp is modelled as a Nat whose order is chronological order,
matching lexicographic order on ISO-8601 strings. -/
structure UserRow where
  id : Nat
  username : String
  password_hash : List Nat
  created_at : Nat
deriving DecidableEq, Repr

/-- The users table. -/
abbrev DB := List UserRow

/-- SELECT ... FROM users WHERE username = ? ... fetchone(). -/
def findByUsername (db : DB) (u : String) : Option UserRow :=
  List.find? (fun r => r.username == u) db

/-- The id AUTOINCREMENT assigns to the next inserted row. -/
def nextId (db : DB) : Nat :=
  (List.map UserRow.id db).foldr Nat.max 0 + 1

/-- The 401 response of a failed login (src/app_secure.py line 348). -/
def invalidCredentialsResp : Resp :=
  ⟨401, [("error", .str "Invalid credentials")]⟩

/-- The 400 response of a duplicate username (src/app_secure.py line 284). -/
def conflictResp : Resp :=
  ⟨400, [("error", .str "Username already exists")]⟩

/-- The 400 response built from a BadRequest raised by validate_input;
str(e) on a werkzeug BadRequest renders as shown. -/
def badRequestResp (msg : String) : Resp :=
  ⟨400, [("error", .str ("400 Bad Request: " ++ msg))]⟩

/-- The 500 response of the generic exception handler in each endpoint. -/
def serverErrorResp : Resp :=
  ⟨500, [("error", .str "Internal server error")]⟩

/-- The 500 response of the DatabaseError handler in create_user
(src/app_secure.py line 312). -/
def creationFailedResp : Resp :=
  ⟨500, [("error", .str "User creation failed")]⟩

/-- The 201 response body of a successful registration
(src/app_secure.py lines 297-306). -/
def createdResp (user_id : Nat) (username : String) : Resp :=
  ⟨201, [("message", .str "User created successfully"),
         ("user_id", .num user_id),
         ("username", .str username)]⟩

/-- create_user (src/app_secure.py lines 254-315): validate, hash, check
for an existing username, insert, respond 201. The wall clock of
datetime.utcnow and the random salt of bcrypt.gensalt are explicit
arguments. Returns the response and the database after the call. -/
def create_user (db : DB) (now : Nat) (salt : Nat)
    (data : Option (List (String × JVal))) : Resp × DB :=
  match validate_input data ["username", "password"] with
  | .error msg => (badRequestResp msg, db)
  | .ok vals =>
    let username := getv vals "username"
    let password := getv vals "password"
    let uv := validate_username username
    if uv.1 = false then (⟨400, [("error", .str uv.2)]⟩, db)
    else
      let pv := validate_password password
      if pv.1 = false then (⟨400, [("error", .str pv.2)]⟩, db)
      else
        let password_hash := hash_password password salt
        match findByUsername db username with
        | some _ => (conflictResp, db)
        | none =>
          let user_id := nextId db
          (createdResp user_id username,
           db ++ [⟨user_id, username, password_hash, now⟩])

/-- The part of login after validate_input (src/app_secure.py lines
328-348): look the user up, then the branch
if user and verify_password(password, user.password_hash). A ValueError
escaping verify_password is caught by the generic handler as a 500. -/
def loginCore (db : DB) (username password : String) : Resp :=
  match findByUsername db username with
  | none => invalidCredentialsResp
  | some user =>
    match verify_password password user.password_hash with
    | .error _ => serverErrorResp
    | .ok true =>
      ⟨200, [("message", .str "Login successful"),
             ("user_id", .num user.id),
             ("username", .str user.username)]⟩
    | .ok false => invalidCredentialsResp

/-- login (src/app_secure.py lines 318-357): generic field validation via
validate_input only, then loginCore. -/
def login (db : DB) (data : Option (List (String × JVal))) : Resp :=
  match validate_input data ["username", "password"] with
  | .error msg => badRequestResp msg
  | .ok vals => loginCore db (getv vals "username") (getv vals "password")

/-- ORDER BY created_at DESC as a Bool relation for mergeSort. -/
def createdDesc (a b : UserRow) : Bool := decide (b.created_at ≤ a.created_at)

/-- The row sequence SELECT id, username, created_at FROM users ORDER BY
created_at DESC returns. -/
def get_users_rows (db : DB) : List UserRow :=
  List.mergeSort db createdDesc

/-- The per-user dict built in get_users (src/app_secure.py lines
234-241): id, username, created_at only. -/
def publicJson (r : UserRow) : JVal :=
  .obj [("id", .num r.id), ("username", .str r.username),
        ("created_at", .num r.created_at)]

/-- get_users (src/app_secure.py lines 224-244). -/
def get_users (db : DB) : Resp :=
  ⟨200, [("users", .arr ((get_users_rows db).map publicJson))]⟩

/-- INSERT INTO users under the UNIQUE constraint on username: fails
exactly when a row with that username already exists, else appends and
reports the lastrowid. -/
def insertRow (db : DB) (username : String) (hash : List Nat) (now : Nat) :
    Except String (Nat × DB) :=
  match findByUsername db username with
  | some _ => .error "UNIQUE constraint failed: users.username"
  | none => .ok (nextId db, db ++ [⟨nextId db, username, hash, now⟩])

/-- Control state of one in-flight create_user request that already passed
validation and hashing: about to run the duplicate-check SELECT, holding
the result of that SELECT, or finished with a response. -/
inductive CUPhase where
  | start : CUPhase
  | checked : Bool → CUPhase
  | done : Resp → CUPhase

/-- One atomic database step of the duplicate-check-then-insert sequence
of create_user (src/app_secure.py lines 277-292): the SELECT and the
INSERT are separate statements on the shared table. A failing INSERT
raises through get_db_connection as DatabaseError, which create_user
answers with the 500 creationFailedResp (src/app_secure.py lines
310-312). -/
def cuStep (username : String) (hash : List Nat) (now : Nat) :
    CUPhase → DB → CUPhase × DB
  | .start, db => (.checked (findByUsername db username).isSome, db)
  | .checked true, db => (.done conflictResp, db)
  | .checked false, db =>
    match insertRow db username hash now with
    | .error _ => (.done creationFailedResp, db)
    | .ok (uid, db2) => (.done (createdResp uid username), db2)
  | .done r, db => (.done r, db)

/-- Two concurrent create_user requests for the same username over the
shared users table: each request has its own control phase. -/
structure RaceState where
  pa : CUPhase
  pb : CUPhase
  db : DB

/-- One scheduling step: true steps request A, false steps request B. -/
def raceStep (username : String) (ha hb : List Nat) (na nb : Nat)
    (s : RaceState) (pick : Bool) : RaceState :=
  if pick then
    let r := cuStep username ha na s.pa s.db
    ⟨r.1, s.pb, r.2⟩
  else
    let r := cuStep username hb nb s.pb s.db
    ⟨s.pa, r.1, r.2⟩

/-- Run an interleaving schedule of the two requests. -/
def raceRun (username : String) (ha hb : List Nat) (na nb : Nat)
    (sched : List Bool) (s : RaceState) : RaceState :=
  sched.foldl (raceStep username ha hb na nb) s

/-- The character class of the regex \x5bA-Za-z0-9_\-.\x5d written out, in
range order, as the spec describes the allowed username characters. -/
def usernameCharClass : List Char :=
  "ABCDEFGHIJKLMNOPQRSTUVWXYZabcdefghijklmnopqrstuvwxyz0123456789_-.".data

/-- Username validation phrased the way the spec states it: the length
checks in order, then every character tested against the regex character
class. -/
def validateUsernameSpec (s : String) : Bool × String :=
  if s.length < 3 then
    (false, "Username must be at least 3 characters long")
  else if s.length > 50 then
    (false, "Username must be less than 50 characters")
  else if s.data.all (fun c => usernameCharClass.contains c) then
    (true, "Valid username")
  else
    (false, "Username contains invalid characters")

/-- Password validation phrased the way the spec states it: the length
checks in order, then one combined complexity requirement of an uppercase
letter, a lowercase letter and a digit. -/
def validatePasswordSpec (s : String) : Bool × String :=
  if s.length < 8 then
    (false, "Password must be at least 8 characters long")
  else if s.length > 128 then
    (false, "Password too long")
  else if (∃ c ∈ s.data, c.isUpper) ∧ (∃ c ∈ s.data, c.isLower) ∧ (∃ c ∈ s.data, c.isDigit) then
    (true, "Valid password")
  else
    (false, "Password must contain uppercase, lowercase, and numeric characters")

theorem contains_congr_perm {l1 l2 : List Char} (h : l1.Perm l2) (c : Char) :
    l1.contains c = l2.contains c := by
  rw [Bool.eq_iff_iff]
  show l1.elem c = true ↔ l2.elem c = true
  rw [List.elem_iff, List.elem_iff]
  exact h.mem_iff

theorem allowed_chars_perm : List.Perm allowed_chars usernameCharClass := by decide

theorem dedup_all_allowed (l : List Char) :
    (l.dedup).all (fun c => allowed_chars.contains c) =
      l.all (fun c => usernameCharClass.contains c) := by
  rw [Bool.eq_iff_iff, List.all_eq_true, List.all_eq_true]
  constructor
  · intro h c hc
    rw [← contains_congr_perm allowed_chars_perm c]
    exact h c (List.mem_dedup.mpr hc)
  · intro h c hc
    rw [contains_congr_perm allowed_chars_perm c]
    exact h c (List.mem_dedup.mp hc)

/-- C6: for every string s, validate_username applies its checks in the
order length-short, length-long, charset, failing with the corresponding
message, and otherwise succeeds; the charset test accepts exactly the
characters of the regex class A-Z a-z 0-9 underscore hyphen dot. -/
theorem validate_username_matches_spec (s : String) :
    validate_username s = validateUsernameSpec s := by
  simp only [validate_username, validateUsernameSpec, dedup_all_allowed]

/-- Witness for validate_username_matches_spec at concrete inputs. -/
theorem validate_username_matches_spec_witness :
    validate_username "test@user!" = validateUsernameSpec "test@user!" ∧
    validate_username "test@user!" = (false, "Username contains invalid characters") :=
  ⟨validate_username_matches_spec "test@user!", by decide⟩

theorem complexity_iff (s : String) :
    (s.data.any Char.isUpper && s.data.any Char.isLower && s.data.any Char.isDigit) = true ↔
      ((∃ c ∈ s.data, c.isUpper) ∧ (∃ c ∈ s.data, c.isLower) ∧ (∃ c ∈ s.data, c.isDigit)) := by
  simp [List.any_eq_true, and_assoc]

/-- C7: for every string s, validate_password fails with the too-short
message below 8 characters, then with the too-long message above 128, then
with the single combined complexity message when an uppercase letter, a
lowercase letter or a digit is missing, and otherwise succeeds. -/
theorem validate_password_matches_spec (s : String) :
    validate_password s = validatePasswordSpec s := by
  unfold validate_password validatePasswordSpec
  by_cases h1 : s.length < 8
  · simp [h1]
  · by_cases h2 : s.length > 128
    · simp [h1, h2]
    · simp only [if_neg h1, if_neg h2]
      by_cases h3 : (s.data.any Char.isUpper && s.data.any Char.isLower && s.data.any Char.isDigit) = true
      · rw [if_pos ((complexity_iff s).mp h3)]
        simp [h3]
      · rw [if_neg (fun hc => h3 ((complexity_iff s).mpr hc))]
        simp only [Bool.not_eq_true] at h3
        simp [h3]

/-- Witness for validate_password_matches_spec at concrete inputs. -/
theorem validate_password_matches_spec_witness :
    validate_password "UPPERCASE123" = validatePasswordSpec "UPPERCASE123" ∧
    validate_password "UPPERCASE123" =
      (false, "Password must contain uppercase, lowercase, and numeric characters") :=
  ⟨validate_password_matches_spec "UPPERCASE123", by decide⟩

/-- C8: two hash_password calls on the same password with the distinct
fresh salts bcrypt.gensalt draws produce different outputs, and
verify_password accepts the password against both. -/
theorem hash_twice_differs_and_verifies (p : String) (s1 s2 : Nat) (h : s1 ≠ s2) :
    hash_password p s1 ≠ hash_password p s2 ∧
    verify_password p (hash_password p s1) = Except.ok true ∧
    verify_password p (hash_password p s2) = Except.ok true := by
  refine ⟨?_, ?_, ?_⟩
  · intro he
    simp only [hash_password, bcrypt_hashpw, bcryptSerialize, bcryptDigest,
      List.cons.injEq] at he
    exact h he.2.1
  · simp [verify_password, bcrypt_checkpw, hash_password, bcrypt_hashpw,
      bcryptSerialize, bcryptParse, bcryptDigest]
  · simp [verify_password, bcrypt_checkpw, hash_password, bcrypt_hashpw,
      bcryptSerialize, bcryptParse, bcryptDigest]

/-- Witness for hash_twice_differs_and_verifies at a concrete password and
two concrete salts. -/
theorem hash_twice_differs_and_verifies_witness :
    hash_password "SecurePass123" 0 ≠ hash_password "SecurePass123" 1 ∧
    verify_password "SecurePass123" (hash_password "SecurePass123" 0) = Except.ok true ∧
    verify_password "SecurePass123" (hash_password "SecurePass123" 1) = Except.ok true :=
  hash_twice_differs_and_verifies "SecurePass123" 0 1 (by decide)

/-- C1 counterexample: on the malformed hash input given by the empty byte
sequence, verify_password propagates the ValueError of bcrypt.checkpw
instead of returning a boolean, refuting the claim that it returns false
on malformed hash input and never raises. -/
theorem verify_malformed_raises :
    verify_password "SecurePass123" [] = Except.error "Invalid salt" ∧
    ¬ ∃ b : Bool, verify_password "SecurePass123" [] = Except.ok b := by
  refine ⟨rfl, ?_⟩
  rintro ⟨b, hb⟩
  exact Except.noConfusion hb

/-- C1 amended: for every password and every byte sequence that parses as
a bcrypt hash, verify_password returns a boolean; on byte sequences that
do not parse it raises instead. -/
theorem verify_wellformed_returns_bool (p : String) (h : List Nat) (bh : BcryptHash)
    (hp : bcryptParse h = some bh) :
    ∃ b : Bool, verify_password p h = Except.ok b := by
  refine ⟨bcryptDigest (strBytes p) bh.salt == bh.check, ?_⟩
  simp [verify_password, bcrypt_checkpw, hp]

/-- Witness for verify_wellformed_returns_bool at a concrete well-formed
hash. -/
theorem verify_wellformed_returns_bool_witness :
    ∃ b : Bool, verify_password "SecurePass123" [36, 0, 7] = Except.ok b :=
  verify_wellformed_returns_bool "SecurePass123" [36, 0, 7] ⟨0, [7]⟩ rfl

theorem validate_input_two_fields (u p : String)
    (hu : u ≠ "") (hp : p ≠ "")
    (hut : (pyStrip u).length ≠ 0) (hpt : (pyStrip p).length ≠ 0)
    (hul : u.length ≤ 255) (hpl : p.length ≤ 255) :
    validate_input (some [("username", JVal.str u), ("password", JVal.str p)])
      ["username", "password"] =
      Except.ok [("username", pyStrip u), ("password", pyStrip p)] := by
  have hul' : ¬ (u.length > 255) := by omega
  have hpl' : ¬ (p.length > 255) := by omega
  simp [validate_input, validateFields, lookupField, JVal.isTruthy,
    hu, hp, hut, hpt, hul', hpl', List.find?]

/-- C10: login runs only the generic field validation of validate_input;
any username/password pair of non-empty strings that are non-empty after
stripping and at most 255 characters long reaches the store lookup and
hash verification of loginCore, with no username-shape or
password-strength check applied. -/
theorem login_applies_only_generic_validation (db : DB) (u p : String)
    (hu : u ≠ "") (hp : p ≠ "")
    (hut : (pyStrip u).length ≠ 0) (hpt : (pyStrip p).length ≠ 0)
    (hul : u.length ≤ 255) (hpl : p.length ≤ 255) :
    login db (some [("username", JVal.str u), ("password", JVal.str p)]) =
      loginCore db (pyStrip u) (pyStrip p) := by
  rw [login, validate_input_two_fields u p hu hp hut hpt hul hpl]
  rfl

/-- Witness for login_applies_only_generic_validation: a username and a
password that registration would reject for shape and strength still reach
loginCore. -/
theorem login_applies_only_generic_validation_witness :
    (validate_username "test@user!").1 = false ∧
    (validate_password "short1").1 = false ∧
    login [] (some [("username", JVal.str "test@user!"), ("password", JVal.str "short1")]) =
      loginCore [] (pyStrip "test@user!") (pyStrip "short1") :=
  ⟨by decide, by decide,
    login_applies_only_generic_validation [] "test@user!" "short1"
      (by decide) (by decide) (by decide) (by decide) (by decide) (by decide)⟩

/-- C3: when the submitted username matches no stored user, or matches one
whose stored hash rejects the submitted password, login returns the one
identical InvalidCredentialsError response, status 401 with the fixed
generic body, in both cases. -/
theorem login_failure_indistinguishable (db : DB)
    (data : Option (List (String × JVal))) (vals : List (String × String))
    (hv : validate_input data ["username", "password"] = Except.ok vals)
    (hcase : findByUsername db (getv vals "username") = none ∨
      ∃ u, findByUsername db (getv vals "username") = some u ∧
        verify_password (getv vals "password") u.password_hash = Except.ok false) :
    login db data = invalidCredentialsResp := by
  rw [login, hv]
  rcases hcase with hnone | ⟨u, hfind, hver⟩
  · simp [loginCore, hnone]
  · simp [loginCore, hfind, hver]

/-- Witness for login_failure_indistinguishable: a nonexistent username
and a wrong password against a stored user both yield the response. -/
theorem login_failure_indistinguishable_witness :
    login [⟨1, "alice", hash_password "Password1" 0, 10⟩]
        (some [("username", JVal.str "bob"), ("password", JVal.str "Password1")]) =
      invalidCredentialsResp ∧
    login [⟨1, "alice", hash_password "Password1" 0, 10⟩]
        (some [("username", JVal.str "alice"), ("password", JVal.str "Wrongpass1")]) =
      invalidCredentialsResp :=
  ⟨login_failure_indistinguishable _ _ [("username", "bob"), ("password", "Password1")]
      rfl (Or.inl rfl),
   login_failure_indistinguishable _ _ [("username", "alice"), ("password", "Wrongpass1")]
      rfl (Or.inr ⟨⟨1, "alice", hash_password "Password1" 0, 10⟩, rfl, rfl⟩)⟩

/-- The registration payload the spec uses in its examples. -/
def regPayload : Option (List (String × JVal)) :=
  some [("username", JVal.str "testuser"), ("password", JVal.str "SecurePass123")]

/-- C4 counterexample: registering testuser with SecurePass123 on an empty
store succeeds with 201, but the response body has no created_at field,
refuting the claim that the result contains the created_at of the new
user. -/
theorem register_response_lacks_created_at :
    (create_user [] 0 0 regPayload).1.status = 201 ∧
    ¬ ("created_at" ∈ keysOf (create_user [] 0 0 regPayload).1.body) := by
  decide

/-- C4 amended: every registration that passes all validation with a free
username succeeds with the 201 createdResp carrying the new id and the
username, and its body holds exactly the keys message, user_id and
username, so neither the password hash nor created_at is included. -/
theorem register_success_response (db : DB) (now salt : Nat)
    (data : Option (List (String × JVal))) (vals : List (String × String))
    (hv : validate_input data ["username", "password"] = Except.ok vals)
    (hu : (validate_username (getv vals "username")).1 = true)
    (hp : (validate_password (getv vals "password")).1 = true)
    (hfree : findByUsername db (getv vals "username") = none) :
    (create_user db now salt data).1 = createdResp (nextId db) (getv vals "username") ∧
    keysOf (create_user db now salt data).1.body = ["message", "user_id", "username"] := by
  rw [create_user, hv]
  simp [hu, hp, hfree, createdResp, keysOf]

/-- Witness for register_success_response at the spec example payload. -/
theorem register_success_response_witness :
    (create_user [] 0 0 regPayload).1 = createdResp 1 "testuser" ∧
    keysOf (create_user [] 0 0 regPayload).1.body = ["message", "user_id", "username"] :=
  register_success_response [] 0 0 regPayload
    [("username", "testuser"), ("password", "SecurePass123")] rfl rfl rfl rfl

/-- C5: registering the same valid username/password payload twice in
sequence succeeds on the first attempt and returns the conflict response
on the second, the store being unchanged by the second attempt. -/
theorem register_twice_conflict (db : DB) (n1 s1 n2 s2 : Nat)
    (data : Option (List (String × JVal))) (vals : List (String × String))
    (hv : validate_input data ["username", "password"] = Except.ok vals)
    (hu : (validate_username (getv vals "username")).1 = true)
    (hp : (validate_password (getv vals "password")).1 = true)
    (hfree : findByUsername db (getv vals "username") = none) :
    (create_user db n1 s1 data).1.status = 201 ∧
    (create_user (create_user db n1 s1 data).2 n2 s2 data).1 = conflictResp ∧
    (create_user (create_user db n1 s1 data).2 n2 s2 data).2 = (create_user db n1 s1 data).2 := by
  have h1 : create_user db n1 s1 data =
      (createdResp (nextId db) (getv vals "username"),
        db ++ [⟨nextId db, getv vals "username", hash_password (getv vals "password") s1, n1⟩]) := by
    rw [create_user, hv]
    simp [hu, hp, hfree]
  have hfind2 : findByUsername
      (db ++ [⟨nextId db, getv vals "username", hash_password (getv vals "password") s1, n1⟩])
      (getv vals "username") =
      some ⟨nextId db, getv vals "username", hash_password (getv vals "password") s1, n1⟩ := by
    unfold findByUsername at hfree ⊢
    rw [List.find?_append, hfree]
    simp
  rw [h1]
  have h2 : create_user
      (db ++ [⟨nextId db, getv vals "username", hash_password (getv vals "password") s1, n1⟩])
      n2 s2 data = (conflictResp,
        db ++ [⟨nextId db, getv vals "username", hash_password (getv vals "password") s1, n1⟩]) := by
    rw [create_user, hv]
    simp [hu, hp, hfind2]
  rw [h2]
  exact ⟨rfl, rfl, rfl⟩

/-- Witness for register_twice_conflict at the spec example payload. -/
theorem register_twice_conflict_witness :
    (create_user [] 0 0 regPayload).1.status = 201 ∧
    (create_user (create_user [] 0 0 regPayload).2 1 1 regPayload).1 = conflictResp ∧
    (create_user (create_user [] 0 0 regPayload).2 1 1 regPayload).2 =
      (create_user [] 0 0 regPayload).2 :=
  register_twice_conflict [] 0 0 1 1 regPayload
    [("username", "testuser"), ("password", "SecurePass123")] rfl rfl rfl rfl

/-- C9: get_users answers 200 with exactly the stored users: the row list
is a permutation of the whole table, ordered by created_at descending
(hence empty when no users exist), and each record serializes only the
keys id, username and created_at, never password_hash. -/
theorem list_users_ordered (db : DB) :
    (get_users db).status = 200 ∧
    (get_users db).body = [("users", JVal.arr ((get_users_rows db).map publicJson))] ∧
    List.Perm (get_users_rows db) db ∧
    List.Pairwise (fun a b : UserRow => b.created_at ≤ a.created_at) (get_users_rows db) ∧
    ∀ r : UserRow, keysOfObj (publicJson r) = ["id", "username", "created_at"] := by
  refine ⟨rfl, rfl, List.mergeSort_perm db createdDesc, ?_, fun r => rfl⟩
  have h := @List.sorted_mergeSort UserRow createdDesc
    (fun a b c hab hbc => by
      simp only [createdDesc, decide_eq_true_eq] at hab hbc ⊢
      omega)
    (fun a b => by
      simp only [createdDesc, Bool.or_eq_true, decide_eq_true_eq]
      omega)
    db
  exact h.imp (fun hab => by simpa [createdDesc] using hab)

/-- Phases a request can be in while no insert has happened yet: its
duplicate check, run against a table without the username, can only have
seen no duplicate. -/
def cuNoIns (p : CUPhase) : Prop := p = .start ∨ p = .checked false

/-- Phases the request that did not insert can be in once the other
request's row is in the table. -/
def cuLoser (p : CUPhase) : Prop :=
  p = .start ∨ p = .checked false ∨ p = .checked true ∨
  p = .done conflictResp ∨ p = .done creationFailedResp

/-- Invariant of the two-request race from a table without the username:
either nobody inserted yet, or exactly one request inserted the single new
row and holds the 201 response while the other can only end in the
conflict response or the 500 DatabaseError response. -/
def raceInv (u : String) (hA hB : List Nat) (nA nB : Nat) (db0 : DB) (s : RaceState) : Prop :=
  (s.db = db0 ∧ cuNoIns s.pa ∧ cuNoIns s.pb)
  ∨ (s.db = db0 ++ [⟨nextId db0, u, hA, nA⟩] ∧
      s.pa = .done (createdResp (nextId db0) u) ∧ cuLoser s.pb)
  ∨ (s.db = db0 ++ [⟨nextId db0, u, hB, nB⟩] ∧
      s.pb = .done (createdResp (nextId db0) u) ∧ cuLoser s.pa)

theorem findByUsername_append_row (db0 : DB) (u : String) (h0 : findByUsername db0 u = none)
    (idv : Nat) (hv : List Nat) (nv : Nat) :
    findByUsername (db0 ++ [⟨idv, u, hv, nv⟩]) u = some ⟨idv, u, hv, nv⟩ := by
  unfold findByUsername at h0 ⊢
  rw [List.find?_append, h0]
  simp

theorem raceInv_step (u : String) (hA hB : List Nat) (nA nB : Nat) (db0 : DB)
    (h0 : findByUsername db0 u = none) (s : RaceState) (pick : Bool)
    (hs : raceInv u hA hB nA nB db0 s) :
    raceInv u hA hB nA nB db0 (raceStep u hA hB nA nB s pick) := by
  obtain ⟨pa, pb, db⟩ := s
  rcases hs with ⟨hdb, h1, h2⟩ | ⟨hdb, h1, h2⟩ | ⟨hdb, h1, h2⟩ <;> subst hdb <;> cases pick
  -- disjunct 1 (no insert yet), pick = false: request B steps
  · rcases h2 with hb | hb <;> subst hb
    · left
      exact ⟨by simp [raceStep, cuStep], h1, Or.inr (by simp [raceStep, cuStep, h0])⟩
    · right; right
      refine ⟨?_, ?_, ?_⟩
      · simp [raceStep, cuStep, insertRow, h0]
      · simp [raceStep, cuStep, insertRow, h0]
      · exact h1.imp id Or.inl
  -- disjunct 1, pick = true: request A steps
  · rcases h1 with ha | ha <;> subst ha
    · left
      exact ⟨by simp [raceStep, cuStep], Or.inr (by simp [raceStep, cuStep, h0]), h2⟩
    · right; left
      refine ⟨?_, ?_, ?_⟩
      · simp [raceStep, cuStep, insertRow, h0]
      · simp [raceStep, cuStep, insertRow, h0]
      · exact h2.imp id Or.inl
  -- disjunct 2 (A inserted), pick = false: request B steps and loses
  · right; left
    subst h1
    have hf := findByUsername_append_row db0 u h0 (nextId db0) hA nA
    rcases h2 with hb | hb | hb | hb | hb <;> subst hb
    · exact ⟨by simp [raceStep, cuStep], rfl, by simp [raceStep, cuStep, hf, cuLoser]⟩
    · exact ⟨by simp [raceStep, cuStep, insertRow, hf], rfl,
        by simp [raceStep, cuStep, insertRow, hf, cuLoser]⟩
    · exact ⟨rfl, rfl, by simp [raceStep, cuStep, cuLoser]⟩
    · exact ⟨rfl, rfl, by simp [raceStep, cuStep, cuLoser]⟩
    · exact ⟨rfl, rfl, by simp [raceStep, cuStep, cuLoser]⟩
  -- disjunct 2, pick = true: request A is done, nothing changes
  · right; left
    subst h1
    exact ⟨rfl, rfl, h2⟩
  -- disjunct 3 (B inserted), pick = false: request B is done, nothing changes
  · right; right
    subst h1
    exact ⟨rfl, rfl, h2⟩
  -- disjunct 3, pick = true: request A steps and loses
  · right; right
    subst h1
    have hf := findByUsername_append_row db0 u h0 (nextId db0) hB nB
    rcases h2 with ha | ha | ha | ha | ha <;> subst ha
    · exact ⟨by simp [raceStep, cuStep], rfl, by simp [raceStep, cuStep, hf, cuLoser]⟩
    · exact ⟨by simp [raceStep, cuStep, insertRow, hf], rfl,
        by simp [raceStep, cuStep, insertRow, hf, cuLoser]⟩
    · exact ⟨rfl, rfl, by simp [raceStep, cuStep, cuLoser]⟩
    · exact ⟨rfl, rfl, by simp [raceStep, cuStep, cuLoser]⟩
    · exact ⟨rfl, rfl, by simp [raceStep, cuStep, cuLoser]⟩

theorem raceInv_run (u : String) (hA hB : List Nat) (nA nB : Nat) (db0 : DB)
    (h0 : findByUsername db0 u = none) (sched : List Bool) (s : RaceState)
    (hs : raceInv u hA hB nA nB db0 s) :
    raceInv u hA hB nA nB db0 (raceRun u hA hB nA nB sched s) := by
  induction sched generalizing s with
  | nil => exact hs
  | cons pick rest ih =>
    exact ih (raceStep u hA hB nA nB s pick) (raceInv_step u hA hB nA nB db0 h0 s pick hs)

/-- C2 counterexample: the interleaving in which both requests pass the
duplicate-check SELECT before either INSERT runs. The winner gets 201,
but the loser hits the UNIQUE constraint, whose DatabaseError the code
maps to the generic 500 User-creation-failed response, not to the
conflict response, refuting atomic duplicate detection at insert time
with the rest failing with a conflict. -/
theorem race_loser_gets_500_not_conflict :
    (raceRun "testuser" (hash_password "SecurePass123" 0) (hash_password "SecurePass123" 1)
        0 1 [true, false, true, false] ⟨.start, .start, []⟩).pa =
      .done (createdResp 1 "testuser") ∧
    (raceRun "testuser" (hash_password "SecurePass123" 0) (hash_password "SecurePass123" 1)
        0 1 [true, false, true, false] ⟨.start, .start, []⟩).pb =
      .done creationFailedResp ∧
    creationFailedResp ≠ conflictResp := by
  refine ⟨rfl, rfl, fun h => ?_⟩
  exact absurd (congrArg Resp.status h) (by decide)

/-- C2 amended: the duplicate check of create_user is a separate
read-then-write sequence; over any interleaving of two concurrent
registrations of a username absent from the store, the UNIQUE constraint
still lets exactly one request succeed and insert exactly one row, but
the losing request finishes with either the conflict response or the
generic 500 User-creation-failed response, the latter exactly when its
read preceded the winner's insert. -/
theorem race_one_success_rest_conflict_or_500 (u : String) (hA hB : List Nat)
    (nA nB : Nat) (db0 : DB) (h0 : findByUsername db0 u = none)
    (sched : List Bool) (ra rb : Resp)
    (hra : (raceRun u hA hB nA nB sched ⟨.start, .start, db0⟩).pa = .done ra)
    (hrb : (raceRun u hA hB nA nB sched ⟨.start, .start, db0⟩).pb = .done rb) :
    (ra = createdResp (nextId db0) u ∧ (rb = conflictResp ∨ rb = creationFailedResp) ∧
      (raceRun u hA hB nA nB sched ⟨.start, .start, db0⟩).db =
        db0 ++ [⟨nextId db0, u, hA, nA⟩]) ∨
    (rb = createdResp (nextId db0) u ∧ (ra = conflictResp ∨ ra = creationFailedResp) ∧
      (raceRun u hA hB nA nB sched ⟨.start, .start, db0⟩).db =
        db0 ++ [⟨nextId db0, u, hB, nB⟩]) := by
  have hinv := raceInv_run u hA hB nA nB db0 h0 sched ⟨.start, .start, db0⟩
    (Or.inl ⟨rfl, Or.inl rfl, Or.inl rfl⟩)
  rcases hinv with ⟨hdb, h1, h2⟩ | ⟨hdb, h1, h2⟩ | ⟨hdb, h1, h2⟩
  · rcases h1 with ha | ha <;> rw [ha] at hra <;> exact CUPhase.noConfusion hra
  · left
    rw [h1] at hra
    refine ⟨(CUPhase.done.inj hra).symm, ?_, hdb⟩
    rcases h2 with hb | hb | hb | hb | hb <;> rw [hb] at hrb
    · exact CUPhase.noConfusion hrb
    · exact CUPhase.noConfusion hrb
    · exact CUPhase.noConfusion hrb
    · exact Or.inl (CUPhase.done.inj hrb).symm
    · exact Or.inr (CUPhase.done.inj hrb).symm
  · right
    rw [h1] at hrb
    refine ⟨(CUPhase.done.inj hrb).symm, ?_, hdb⟩
    rcases h2 with ha | ha | ha | ha | ha <;> rw [ha] at hra
    · exact CUPhase.noConfusion hra
    · exact CUPhase.noConfusion hra
    · exact CUPhase.noConfusion hra
    · exact Or.inl (CUPhase.done.inj hra).symm
    · exact Or.inr (CUPhase.done.inj hra).symm

/-- Witness for race_one_success_rest_conflict_or_500 at the racing
schedule from the empty store. -/
theorem race_one_success_rest_conflict_or_500_witness :
    (createdResp 1 "testuser" = createdResp 1 "testuser" ∧
      (creationFailedResp = conflictResp ∨ creationFailedResp = creationFailedResp) ∧
      (raceRun "testuser" (hash_password "SecurePass123" 0) (hash_password "SecurePass123" 1)
          0 1 [true, false, true, false] ⟨.start, .start, []⟩).db =
        [] ++ [⟨1, "testuser", hash_password "SecurePass123" 0, 0⟩]) ∨
    (creationFailedResp = createdResp 1 "testuser" ∧
      (createdResp 1 "testuser" = conflictResp ∨ createdResp 1 "testuser" = creationFailedResp) ∧
      (raceRun "testuser" (hash_password "SecurePass123" 0) (hash_password "SecurePass123" 1)
          0 1 [true, false, true, false] ⟨.start, .start, []⟩).db =
        [] ++ [⟨1, "testuser", hash_password "SecurePass123" 1, 1⟩]) :=
  race_one_success_rest_conflict_or_500 "testuser"
    (hash_password "SecurePass123" 0) (hash_password "SecurePass123" 1) 0 1 [] rfl
    [true, false, true, false] (createdResp 1 "testuser") creationFailedResp rfl rfl
